import Mathlib

/-!
Shallow embedding of `use-firebase-auth` (src/src/use-reduced-state.tsx):
a React context provider and hook wrapping the Firebase Authentication
client SDK.  The SDK itself is an external collaborator; its calls are
modelled by outcome oracles (`Except`-valued parameters) and by a trace of
issued calls (`SdkCall`), so that theorems can speak both about results,
state patches and which SDK functions were invoked.
-/

namespace UseFirebaseAuth

/-- Opaque handle for a Firebase `User` (owned by the wrapped SDK). -/
structure FirebaseUser where
  uid : String
deriving DecidableEq, Repr

/-- Opaque pending credential (`e.credential` on a popup failure). -/
structure Credential where
  providerId : String
deriving DecidableEq, Repr

/-- A Firebase SDK error as caught in the code: `e.code`, `e.message`,
and the optional `e.email` / `e.credential` fields carried by
account-conflict errors.  `email = none` models an absent/undefined field. -/
structure AuthError where
  code : String
  message : String
  email : Option String
  credential : Option Credential
deriving DecidableEq, Repr

/-- A JavaScript-level error: either a locally thrown `new Error(msg)`
or an error surfaced by the wrapped SDK. -/
inductive JsError where
  | plain (message : String)
  | sdk (e : AuthError)
deriving DecidableEq, Repr

/-- The stored auth state `{user, loading, error, firstCheck}` of
`use-reduced-state.tsx`.  Each field is optional; `none` models the
field being absent or `undefined` (indistinguishable to readers). -/
structure AuthState where
  user : Option FirebaseUser
  loading : Option Bool
  error : Option AuthError
  firstCheck : Option Bool
deriving DecidableEq, Repr

/-- A state update object passed to `setState`.  The outer `Option`
records whether the key is present in the update object (JS spread
copies own keys only); the inner value is what the key maps to. -/
structure Patch where
  user : Option (Option FirebaseUser) := none
  loading : Option (Option Bool) := none
  error : Option (Option AuthError) := none
  firstCheck : Option (Option Bool) := none
deriving DecidableEq, Repr

/-- The reducer of `useReducedState`:
`(oldState, newState) => ({ ...oldState, ...newState })`.
A key present in the update overrides, an absent key is preserved. -/
def reduce (oldState : AuthState) (newState : Patch) : AuthState :=
  { user := match newState.user with
      | none => oldState.user
      | some v => v
    loading := match newState.loading with
      | none => oldState.loading
      | some v => v
    error := match newState.error with
      | none => oldState.error
      | some v => v
    firstCheck := match newState.firstCheck with
      | none => oldState.firstCheck
      | some v => v }

/-- The spec-side shallow-merge contract, written from the spec's words
("fields not present in an update are preserved, not cleared"; a present
field takes the update's value), to be compared with `reduce`. -/
def mergeSpec (s : AuthState) (p : Patch) : AuthState :=
  { user := (p.user).getD s.user
    loading := (p.loading).getD s.loading
    error := (p.error).getD s.error
    firstCheck := (p.firstCheck).getD s.firstCheck }

/-- Spec-side field-wise last-writer-wins of two optional writes. -/
def lastWrite {α : Type} (a b : Option α) : Option α :=
  match b with
  | some v => some v
  | none => a

/-- Spec-side "field-wise last-writer-wins merge of s, p1, p2":
a field present in p2 wins, else a field present in p1, else s's value. -/
def lww3 (s : AuthState) (p1 p2 : Patch) : AuthState :=
  { user := (lastWrite p1.user p2.user).getD s.user
    loading := (lastWrite p1.loading p2.loading).getD s.loading
    error := (lastWrite p1.error p2.error).getD s.error
    firstCheck := (lastWrite p1.firstCheck p2.firstCheck).getD s.firstCheck }

/-- Apply a list of `setState` patches in order. -/
def applyPatches (s : AuthState) (ps : List Patch) : AuthState :=
  ps.foldl reduce s

/-- The seed state built at provider initialization
(`FirebaseAuthProvider`, lines 95-100):
`{ user: firebaseCurrentUser === null ? undefined : firebaseCurrentUser,
   loading: false, firstCheck: false }` — no `error` key. -/
def initialAuthState (firebaseCurrentUser : Option FirebaseUser) : AuthState :=
  { user := match firebaseCurrentUser with
      | none => none
      | some u => some u
    loading := some false
    error := none
    firstCheck := some false }

/-- The patch sent by the `onAuthStateChanged` callback (lines 105-109):
`{ loading: false, user: user === null ? undefined : user, firstCheck: true }`. -/
def authNotifyPatch (user : Option FirebaseUser) : Patch :=
  { loading := some (some false)
    user := some (match user with
      | none => none
      | some u => some u)
    firstCheck := some (some true) }

/-- Every `setState` call site in the codebase, as an event:
an auth-state-change notification, a `{loading: true}` write (the mount
effect and the start of a facade operation), or a failure write
`{error: e, loading: false}`. -/
inductive Event where
  | authStateChanged (user : Option FirebaseUser)
  | startLoading
  | opFailure (e : AuthError)
deriving DecidableEq, Repr

/-- The patch each event's `setState` call carries, read off the source. -/
def patchOfEvent : Event → Patch
  | .authStateChanged u => authNotifyPatch u
  | .startLoading => { loading := some (some true) }
  | .opFailure e => { error := some (some e), loading := some (some false) }

/-- Run a sequence of state updates through the reducer. -/
def applyEvents (s : AuthState) (es : List Event) : AuthState :=
  es.foldl (fun st e => reduce st (patchOfEvent e)) s

/-- Whether an event is an auth-state-change notification. -/
def isAuthStateChanged : Event → Bool
  | .authStateChanged _ => true
  | _ => false

/-- `PROVIDER_ID` constants of the SDK's provider classes. -/
def GOOGLE_PROVIDER_ID : String := "google.com"

/-- Facebook `PROVIDER_ID`. -/
def FACEBOOK_PROVIDER_ID : String := "facebook.com"

/-- Twitter `PROVIDER_ID`. -/
def TWITTER_PROVIDER_ID : String := "twitter.com"

/-- GitHub `PROVIDER_ID`. -/
def GITHUB_PROVIDER_ID : String := "github.com"

/-- A concrete SDK provider object, tracking what the code mutates on it:
its provider id, whether it is an `instanceof OAuthProvider`
(only `new OAuthProvider(id)` is; the Google/Facebook/Twitter/GitHub
classes are separate subclasses), its attached scopes, and its custom
parameters. -/
structure ProviderObj where
  providerId : String
  isOAuth : Bool
  scopes : List String
  customParameters : List (String × String)
deriving DecidableEq, Repr

/-- `new GoogleAuthProvider()`. -/
def newGoogleAuthProvider : ProviderObj :=
  { providerId := GOOGLE_PROVIDER_ID, isOAuth := false, scopes := [], customParameters := [] }

/-- `new FacebookAuthProvider()`. -/
def newFacebookAuthProvider : ProviderObj :=
  { providerId := FACEBOOK_PROVIDER_ID, isOAuth := false, scopes := [], customParameters := [] }

/-- `new TwitterAuthProvider()`. -/
def newTwitterAuthProvider : ProviderObj :=
  { providerId := TWITTER_PROVIDER_ID, isOAuth := false, scopes := [], customParameters := [] }

/-- `new GithubAuthProvider()`. -/
def newGithubAuthProvider : ProviderObj :=
  { providerId := GITHUB_PROVIDER_ID, isOAuth := false, scopes := [], customParameters := [] }

/-- `new OAuthProvider(id)` (used for "microsoft.com" / "yahoo.com"). -/
def newOAuthProvider (id : String) : ProviderObj :=
  { providerId := id, isOAuth := true, scopes := [], customParameters := [] }

/-- `provider.addScope(scope)`. -/
def addScope (p : ProviderObj) (scope : String) : ProviderObj :=
  { p with scopes := p.scopes ++ [scope] }

/-- `provider.setCustomParameters(params)` (replaces the parameters). -/
def setCustomParameters (p : ProviderObj) (params : List (String × String)) : ProviderObj :=
  { p with customParameters := params }

/-- The argument of `signInWithProvider`: a string identifier or a
caller-supplied provider object. -/
inductive ProviderArg where
  | str (s : String)
  | obj (p : ProviderObj)
deriving DecidableEq, Repr

/-- `provider instanceof OAuthProvider` on the raw argument: false for
every string, and for an object exactly its `instanceof` status. -/
def isInstanceOfOAuthProvider : ProviderArg → Bool
  | .str _ => false
  | .obj p => p.isOAuth

/-- The `SIGNIN_PROVIDERS` string enum values. -/
def PASSWORD : String := "password"

/-- `SIGNIN_PROVIDERS.GOOGLE`. -/
def GOOGLE : String := "google"

/-- `SIGNIN_PROVIDERS.FACEBOOK`. -/
def FACEBOOK : String := "facebook"

/-- `SIGNIN_PROVIDERS.TWITTER`. -/
def TWITTER : String := "twitter"

/-- `SIGNIN_PROVIDERS.GITHUB`. -/
def GITHUB : String := "github"

/-- `SIGNIN_PROVIDERS.MICROSOFT`. -/
def MICROSOFT : String := "microsoft"

/-- `SIGNIN_PROVIDERS.YAHOO`. -/
def YAHOO : String := "yahoo"

/-- The `switch (provider)` of `signInWithProvider` (lines 154-185):
each recognized identifier constructs its provider object; any other
string hits `default: throw new Error(...)`; a provider object argument
is used as-is. -/
def resolveProvider (provider : ProviderArg) : Except JsError ProviderObj :=
  match provider with
  | .str s =>
      if s = GOOGLE then .ok newGoogleAuthProvider
      else if s = FACEBOOK then .ok newFacebookAuthProvider
      else if s = TWITTER then .ok newTwitterAuthProvider
      else if s = GITHUB then .ok newGithubAuthProvider
      else if s = MICROSOFT then .ok (newOAuthProvider "microsoft.com")
      else if s = YAHOO then .ok (newOAuthProvider "yahoo.com")
      else .error (.plain ("Unrecognized provider: " ++ s))
  | .obj p => .ok p

/-- `const supportedPopupSignInMethods = [Google, Facebook, Github].PROVIDER_ID`. -/
def supportedPopupSignInMethods : List String :=
  [GOOGLE_PROVIDER_ID, FACEBOOK_PROVIDER_ID, GITHUB_PROVIDER_ID]

/-- ASCII apostrophe, to spell error messages exactly as the source does. -/
def apos : String := String.singleton (Char.ofNat 39)

/-- The message of the unsupported-provider throw (line 228-230). -/
def unsupportedProviderMsg : String :=
  "Your account is linked to a provider that isn" ++ apos ++ "t supported."

/-- The inner `getProvider` helper (lines 208-219): maps a sign-in method
id back to a freshly constructed provider, throwing on anything outside
the supported three. -/
def getProvider (providerId : String) : Except JsError ProviderObj :=
  if providerId = GOOGLE_PROVIDER_ID then .ok newGoogleAuthProvider
  else if providerId = FACEBOOK_PROVIDER_ID then .ok newFacebookAuthProvider
  else if providerId = GITHUB_PROVIDER_ID then .ok newGithubAuthProvider
  else .error (.plain ("No provider implemented for " ++ providerId))

/-- A recorded invocation of a wrapped-SDK function. -/
inductive SdkCall where
  | getAuth
  | useDeviceLanguage
  | popup (p : ProviderObj)
  | fetchSignInMethodsForEmail (email : String)
  | linkWithCredential (u : FirebaseUser) (c : Credential)
  | sdkSignInWithEmailAndPassword (email password : String)
  | sdkSignOut
  | sdkCreateUser (email password : String)
  | sdkSendPasswordResetEmail (email : String)
  | sdkVerifyPasswordResetCode (code : String)
  | sdkConfirmPasswordReset (code newPassword : String)
  | sdkApplyActionCode (code : String)
  | sdkUpdateProfile (u : FirebaseUser) (displayName photoURL : Option String)
  | sdkUpdatePassword (u : FirebaseUser) (newPassword : String)
deriving DecidableEq, Repr

/-- The SDK's `UserCredential`; the code guards on `result.user &&`, so
the user slot is modelled as possibly absent. -/
structure UserCredential where
  user : Option FirebaseUser
deriving DecidableEq, Repr

/-- What one facade call produced: its settled result (`Except.error`
models a rejected promise), the `setState` patches it issued in order,
and the SDK calls it made in order. -/
structure OpResult (α : Type) where
  result : Except JsError α
  patches : List Patch
  calls : List SdkCall
deriving Repr

/-- Oracle for the SDK outcomes one `signInWithProvider` call can
observe: the first popup, the sign-in-methods fetch, the second
(recovery) popup, and the fire-and-forget `linkWithCredential`. -/
structure Env where
  firstPopup : Except AuthError UserCredential
  fetchMethods : Except AuthError (List String)
  secondPopup : Except AuthError UserCredential
  linkResult : Except AuthError UserCredential
deriving Repr

/-- The `options?: { scopes?: string[] }` argument. -/
structure ScopeOptions where
  scopes : Option (List String)
deriving DecidableEq, Repr

/-- The value distributed through the context by `FirebaseAuthProvider`
(the composed state; the app handle and setter are implicit here). -/
structure FirebaseContextValue where
  user : Option FirebaseUser
  loading : Option Bool
  error : Option AuthError
  firstCheck : Option Bool
deriving DecidableEq, Repr

/-- `useFirebaseAuth` (lines 129-134): reads the context; a `null`
context throws `new Error("No FirebaseAuthProvider found.")`
synchronously, otherwise the facade closure over the context is built. -/
def useFirebaseAuth (firebaseContext : Option FirebaseContextValue) :
    Except JsError FirebaseContextValue :=
  match firebaseContext with
  | none => .error (.plain "No FirebaseAuthProvider found.")
  | some c => .ok c

/-- JS truthiness of `e.email`: present and a nonempty string. -/
def truthyEmail : Option String → Bool
  | none => false
  | some s => if s = "" then false else true

/-- `signInWithProvider` (lines 145-246), with SDK outcomes supplied by
`env`.  It sets `{loading: true}`, calls `useDeviceLanguage`, resolves
the provider (the switch throws on unrecognized strings), attaches the
requested scopes only when the raw `provider` argument is an
`instanceof OAuthProvider`, then awaits the popup.  On an
account-exists-with-different-credential failure carrying an email and a
credential it fetches the sign-in methods, throws when none of them is a
supported popup method, otherwise runs a second popup against the
matching provider hinted with the email and, on success, issues an
un-awaited `linkWithCredential`; every such recovery path returns `null`.
Any other popup failure is stored as `{error: e, loading: false}`. -/
def signInWithProvider (env : Env) (provider : ProviderArg)
    (options : Option ScopeOptions) : OpResult (Option UserCredential) :=
  let patches0 : List Patch := [{ loading := some (some true) }]
  let calls1 : List SdkCall := [.getAuth, .useDeviceLanguage]
  match resolveProvider provider with
  | .error err => { result := .error err, patches := patches0, calls := calls1 }
  | .ok providerObj0 =>
    let scopes : List String :=
      match options with
      | some o => match o.scopes with
        | some l => l
        | none => []
      | none => []
    let providerObj :=
      if isInstanceOfOAuthProvider provider then scopes.foldl addScope providerObj0
      else providerObj0
    let calls2 := calls1 ++ [.popup providerObj]
    match env.firstPopup with
    | .ok userCredential =>
        { result := .ok (some userCredential), patches := patches0, calls := calls2 }
    | .error e =>
        let fallthrough : OpResult (Option UserCredential) :=
          { result := .ok none
            patches := patches0 ++ [{ error := some (some e), loading := some (some false) }]
            calls := calls2 }
        match e.email, e.credential with
        | some em, some cred =>
          if em = "" then fallthrough
          else if e.code = "auth/account-exists-with-different-credential" then
            let calls3 := calls2 ++ [.fetchSignInMethodsForEmail em]
            match env.fetchMethods with
            | .error fe => { result := .error (.sdk fe), patches := patches0, calls := calls3 }
            | .ok providers =>
              match providers.find? (fun p => supportedPopupSignInMethods.contains p) with
              | none =>
                  { result := .error (.plain unsupportedProviderMsg)
                    patches := patches0
                    calls := calls3 }
              | some firstPopupProviderMethod =>
                match getProvider firstPopupProviderMethod with
                | .error ge => { result := .error ge, patches := patches0, calls := calls3 }
                | .ok lp =>
                  let linkedProvider := setCustomParameters lp [("login_hint", em)]
                  let calls4 := calls3 ++ [.popup linkedProvider]
                  match env.secondPopup with
                  | .error pe => { result := .error (.sdk pe), patches := patches0, calls := calls4 }
                  | .ok result =>
                    let calls5 := calls4 ++
                      (match result.user with
                       | some u => [SdkCall.linkWithCredential u cred]
                       | none => [])
                    { result := .ok none, patches := patches0, calls := calls5 }
          else fallthrough
        | _, _ => fallthrough

/-- `signInWithEmailAndPassword` (lines 248-262): sets loading, forwards
to the SDK, and on rejection stores `{error, loading: false}` via
`.catch`, so the promise resolves with `undefined` instead. -/
def signInWithEmailAndPassword (outcome : Except AuthError UserCredential)
    (email password : String) : OpResult (Option UserCredential) :=
  let calls : List SdkCall := [.getAuth, .sdkSignInWithEmailAndPassword email password]
  match outcome with
  | .ok uc =>
      { result := .ok (some uc), patches := [{ loading := some (some true) }], calls := calls }
  | .error e =>
      { result := .ok none
        patches := [{ loading := some (some true) },
                    { error := some (some e), loading := some (some false) }]
        calls := calls }

/-- `signOut` (lines 264-268): sets loading and returns the SDK promise
with no `.catch`, so a rejection propagates and no error is stored. -/
def signOut (outcome : Except AuthError Unit) : OpResult Unit :=
  { result := outcome.mapError JsError.sdk
    patches := [{ loading := some (some true) }]
    calls := [.getAuth, .sdkSignOut] }

/-- `createUserWithEmailAndPassword` (lines 270-283): same shape as
`signInWithEmailAndPassword`, with a `.catch` storing the error. -/
def createUserWithEmailAndPassword (outcome : Except AuthError UserCredential)
    (email password : String) : OpResult (Option UserCredential) :=
  let calls : List SdkCall := [.getAuth, .sdkCreateUser email password]
  match outcome with
  | .ok uc =>
      { result := .ok (some uc), patches := [{ loading := some (some true) }], calls := calls }
  | .error e =>
      { result := .ok none
        patches := [{ loading := some (some true) },
                    { error := some (some e), loading := some (some false) }]
        calls := calls }

/-- `sendPasswordResetEmail` (lines 285-288): plain passthrough, no
state writes, no catch. -/
def sendPasswordResetEmail (outcome : Except AuthError Unit) (email : String) : OpResult Unit :=
  { result := outcome.mapError JsError.sdk
    patches := []
    calls := [.getAuth, .sdkSendPasswordResetEmail email] }

/-- `verifyPasswordResetCode` (lines 290-293): plain passthrough. -/
def verifyPasswordResetCode (outcome : Except AuthError String) (code : String) :
    OpResult String :=
  { result := outcome.mapError JsError.sdk
    patches := []
    calls := [.getAuth, .sdkVerifyPasswordResetCode code] }

/-- `confirmPasswordReset` (lines 295-301): plain passthrough. -/
def confirmPasswordReset (outcome : Except AuthError Unit) (code newPassword : String) :
    OpResult Unit :=
  { result := outcome.mapError JsError.sdk
    patches := []
    calls := [.getAuth, .sdkConfirmPasswordReset code newPassword] }

/-- `applyActionCode` (lines 303-306): plain passthrough. -/
def applyActionCode (outcome : Except AuthError Unit) (code : String) : OpResult Unit :=
  { result := outcome.mapError JsError.sdk
    patches := []
    calls := [.getAuth, .sdkApplyActionCode code] }

/-- `updateProfile` (lines 308-322): throws "User is not logged in" with
no SDK call when no user is in context, else forwards once to the SDK. -/
def updateProfile (user : Option FirebaseUser) (outcome : Except AuthError Unit)
    (displayName photoURL : Option String) : OpResult Unit :=
  match user with
  | none => { result := .error (.plain "User is not logged in"), patches := [], calls := [] }
  | some u =>
      { result := outcome.mapError JsError.sdk
        patches := []
        calls := [.sdkUpdateProfile u displayName photoURL] }

/-- `updatePassword` (lines 324-330): same precondition as `updateProfile`. -/
def updatePassword (user : Option FirebaseUser) (outcome : Except AuthError Unit)
    (newPassword : String) : OpResult Unit :=
  match user with
  | none => { result := .error (.plain "User is not logged in"), patches := [], calls := [] }
  | some u =>
      { result := outcome.mapError JsError.sdk
        patches := []
        calls := [.sdkUpdatePassword u newPassword] }

/-- A generic oracle whose first popup fails with a plain (non-conflict)
error; used where the popup outcome is irrelevant or the error path is
the point. -/
def envAny : Env :=
  { firstPopup := .error
      { code := "auth/popup-closed-by-user", message := "closed", email := none,
        credential := none }
    fetchMethods := .ok []
    secondPopup := .error
      { code := "auth/popup-closed-by-user", message := "closed", email := none,
        credential := none }
    linkResult := .error
      { code := "auth/popup-closed-by-user", message := "closed", email := none,
        credential := none } }

/-- A concrete SDK rejection for the sign-out counterexample. -/
def eC3 : AuthError :=
  { code := "auth/network-request-failed", message := "network", email := none,
    credential := none }

/-- A concrete state whose `firstCheck` is already true. -/
def sC6 : AuthState :=
  { user := none, loading := some false, error := none, firstCheck := some true }

/-- A concrete account-conflict error: the first popup rejected because
the email already has an account under another provider. -/
def eConflict : AuthError :=
  { code := "auth/account-exists-with-different-credential"
    message := "account exists"
    email := some "a@b.c"
    credential := some { providerId := "facebook.com" } }

/-- A concrete user returned by the recovery popup. -/
def uA : FirebaseUser := { uid := "uid-1" }

/-- The recovery popup's successful credential. -/
def ucC : UserCredential := { user := some uA }

/-- A concrete oracle driving the account-conflict recovery branch:
conflict on the first popup, a github-only account, successful second
popup. -/
def envC1 : Env :=
  { firstPopup := .error eConflict
    fetchMethods := .ok ["github.com"]
    secondPopup := .ok ucC
    linkResult := .ok ucC }

theorem applyEvents_cons (s : AuthState) (e : Event) (es : List Event) :
    applyEvents s (e :: es) = applyEvents (reduce s (patchOfEvent e)) es := rfl

theorem applyEvents_firstCheck (es : List Event) : ∀ s : AuthState,
    (applyEvents s es).firstCheck =
      if es.any isAuthStateChanged then some true else s.firstCheck := by
  induction es with
  | nil => intro s; rfl
  | cons e es ih =>
    intro s
    rw [applyEvents_cons, ih]
    cases e with
    | authStateChanged u =>
        simp [isAuthStateChanged, reduce, patchOfEvent, authNotifyPatch]
    | startLoading =>
        simp [isAuthStateChanged, reduce, patchOfEvent]
    | opFailure err =>
        simp [isAuthStateChanged, reduce, patchOfEvent]

theorem getProvider_of_find (providers : List String) (m : String)
    (h : providers.find? (fun p => supportedPopupSignInMethods.contains p) = some m) :
    ∃ lp, getProvider m = .ok lp := by
  have hm := List.find?_some h
  have hmem : m = GOOGLE_PROVIDER_ID ∨ m = FACEBOOK_PROVIDER_ID ∨ m = GITHUB_PROVIDER_ID := by
    simpa [supportedPopupSignInMethods] using hm
  rcases hmem with h1 | h1 | h1 <;> subst h1 <;> exact ⟨_, rfl⟩

/-- Claim C2: the reducer is the pure shallow merge `{...s, ...p}` (a
field present in the patch overrides, an absent one is preserved), and
two sequenced reductions equal the field-wise last-writer-wins merge of
the state and both patches. -/
theorem reduce_shallow_merge_lww (s : AuthState) (p p1 p2 : Patch) :
    reduce s p = mergeSpec s p ∧ reduce (reduce s p1) p2 = lww3 s p1 p2 := by
  constructor
  · obtain ⟨u, l, er, f⟩ := p
    cases u <;> cases l <;> cases er <;> cases f <;> rfl
  · obtain ⟨u1, l1, er1, f1⟩ := p1
    obtain ⟨u2, l2, er2, f2⟩ := p2
    cases u1 <;> cases l1 <;> cases er1 <;> cases f1 <;>
      cases u2 <;> cases l2 <;> cases er2 <;> cases f2 <;> rfl

/-- Claim C6: `firstCheck` is monotone — once `some true`, no sequence of
the code's state updates ever changes it — and, starting from the seeded
initial state, it is `some true` after a run exactly when an auth-state
notification occurred (each notification writes `firstCheck: true`, and
no other update touches the field). -/
theorem firstCheck_monotone_once :
    (∀ (s : AuthState) (es : List Event), s.firstCheck = some true →
        (applyEvents s es).firstCheck = some true) ∧
    (∀ (cu : Option FirebaseUser) (es : List Event),
        (applyEvents (initialAuthState cu) es).firstCheck = some true ↔
          es.any isAuthStateChanged = true) := by
  constructor
  · intro s es h
    rw [applyEvents_firstCheck]
    split <;> simp [h]
  · intro cu es
    rw [applyEvents_firstCheck]
    cases cu <;> split <;> simp_all [initialAuthState]

theorem firstCheck_monotone_once_witness :
    (applyEvents sC6 [Event.startLoading, Event.opFailure eC3]).firstCheck = some true :=
  firstCheck_monotone_once.1 sC6 [Event.startLoading, Event.opFailure eC3] rfl

/-- Claim C7: `useFirebaseAuth` throws "No FirebaseAuthProvider found."
when the context is null, and otherwise yields the context's facade
value. -/
theorem useFirebaseAuth_requires_provider :
    useFirebaseAuth none = .error (.plain "No FirebaseAuthProvider found.") ∧
    ∀ c : FirebaseContextValue, useFirebaseAuth (some c) = .ok c :=
  ⟨rfl, fun _ => rfl⟩

/-- Claim C8: with no user in context, `updateProfile` and
`updatePassword` throw "User is not logged in" and issue no SDK call;
with a user, each forwards exactly once to its SDK counterpart. -/
theorem update_requires_logged_in_user (outcome : Except AuthError Unit)
    (displayName photoURL : Option String) (newPassword : String) :
    ((updateProfile none outcome displayName photoURL).result =
        .error (.plain "User is not logged in") ∧
      (updateProfile none outcome displayName photoURL).calls = []) ∧
    ((updatePassword none outcome newPassword).result =
        .error (.plain "User is not logged in") ∧
      (updatePassword none outcome newPassword).calls = []) ∧
    ∀ u : FirebaseUser,
      (updateProfile (some u) outcome displayName photoURL).calls =
          [SdkCall.sdkUpdateProfile u displayName photoURL] ∧
        (updateProfile (some u) outcome displayName photoURL).result =
          outcome.mapError JsError.sdk ∧
        (updatePassword (some u) outcome newPassword).calls =
          [SdkCall.sdkUpdatePassword u newPassword] ∧
        (updatePassword (some u) outcome newPassword).result =
          outcome.mapError JsError.sdk :=
  ⟨⟨rfl, rfl⟩, ⟨rfl, rfl⟩, fun _ => ⟨rfl, rfl, rfl, rfl⟩⟩

/-- Claim C9: the provider seeds state exactly as `{user: currentUser or
undefined, loading: false, firstCheck: false}` with no error field. -/
theorem initial_state_seed (firebaseCurrentUser : Option FirebaseUser) :
    initialAuthState firebaseCurrentUser =
      { user := firebaseCurrentUser, loading := some false, error := none,
        firstCheck := some false } := by
  cases firebaseCurrentUser <;> rfl

/-- Claim C3 counterexample: `signOut` has no `.catch` — a rejected SDK
sign-out propagates out of the facade call and the only state write is
the initial `{loading: true}`, so `error` is never stored and `loading`
is not cleared, contradicting the claim that every non-popup facade
operation stores the rejection and resolves with a sentinel. -/
theorem signOut_rejection_propagates_ce :
    (signOut (.error eC3)).result = .error (.sdk eC3) ∧
    (signOut (.error eC3)).patches = [{ loading := some (some true) }] :=
  ⟨rfl, rfl⟩

/-- Claim C3 amended: only email/password sign-in and account creation
catch the rejection, store `{error, loading: false}` and resolve
undefined (leaving `user` and `firstCheck` untouched); sign-out sets
`loading: true` and propagates the rejection, and the reset/verify/
action-code/update operations propagate it without touching state. -/
theorem facade_error_capture_policy (e : AuthError) (email pw code npw : String)
    (s : AuthState) (u : FirebaseUser) (dn purl : Option String) :
    ((signInWithEmailAndPassword (.error e) email pw).result = .ok none ∧
      applyPatches s (signInWithEmailAndPassword (.error e) email pw).patches =
        { user := s.user, loading := some false, error := some e,
          firstCheck := s.firstCheck }) ∧
    ((createUserWithEmailAndPassword (.error e) email pw).result = .ok none ∧
      applyPatches s (createUserWithEmailAndPassword (.error e) email pw).patches =
        { user := s.user, loading := some false, error := some e,
          firstCheck := s.firstCheck }) ∧
    ((signOut (.error e)).result = .error (.sdk e) ∧
      (signOut (.error e)).patches = [{ loading := some (some true) }]) ∧
    ((sendPasswordResetEmail (.error e) email).result = .error (.sdk e) ∧
      (sendPasswordResetEmail (.error e) email).patches = []) ∧
    ((verifyPasswordResetCode (.error e) code).result = .error (.sdk e) ∧
      (verifyPasswordResetCode (.error e) code).patches = []) ∧
    ((confirmPasswordReset (.error e) code npw).result = .error (.sdk e) ∧
      (confirmPasswordReset (.error e) code npw).patches = []) ∧
    ((applyActionCode (.error e) code).result = .error (.sdk e) ∧
      (applyActionCode (.error e) code).patches = []) ∧
    ((updateProfile (some u) (.error e) dn purl).result = .error (.sdk e) ∧
      (updateProfile (some u) (.error e) dn purl).patches = []) ∧
    ((updatePassword (some u) (.error e) npw).result = .error (.sdk e) ∧
      (updatePassword (some u) (.error e) npw).patches = []) :=
  ⟨⟨rfl, rfl⟩, ⟨rfl, rfl⟩, ⟨rfl, rfl⟩, ⟨rfl, rfl⟩, ⟨rfl, rfl⟩, ⟨rfl, rfl⟩,
    ⟨rfl, rfl⟩, ⟨rfl, rfl⟩, ⟨rfl, rfl⟩⟩

/-- Claim C4 counterexample: the identifier "password" is in the
`SIGNIN_PROVIDERS` enum but the switch has no case for it, so the call
rejects with "Unrecognized provider: password" and never reaches the
popup flow, contradicting the claim that every enum identifier resolves
a provider. -/
theorem password_identifier_rejects_ce :
    (signInWithProvider envAny (.str PASSWORD) none).result =
        .error (.plain ("Unrecognized provider: " ++ PASSWORD)) ∧
      (signInWithProvider envAny (.str PASSWORD) none).calls =
        [SdkCall.getAuth, SdkCall.useDeviceLanguage] :=
  ⟨rfl, rfl⟩

/-- Claim C4 amended: each of google/facebook/twitter/github/microsoft/
yahoo constructs its concrete provider and the popup flow is opened
against it; any other string — "password" included — makes the call
reject with an unrecognized-provider error before any popup. -/
theorem provider_identifier_resolution (env : Env) (options : Option ScopeOptions) :
    (resolveProvider (.str GOOGLE) = .ok newGoogleAuthProvider ∧
      resolveProvider (.str FACEBOOK) = .ok newFacebookAuthProvider ∧
      resolveProvider (.str TWITTER) = .ok newTwitterAuthProvider ∧
      resolveProvider (.str GITHUB) = .ok newGithubAuthProvider ∧
      resolveProvider (.str MICROSOFT) = .ok (newOAuthProvider "microsoft.com") ∧
      resolveProvider (.str YAHOO) = .ok (newOAuthProvider "yahoo.com")) ∧
    (∀ s p, resolveProvider (.str s) = .ok p →
        (signInWithProvider env (.str s) options).calls.take 3 =
          [SdkCall.getAuth, SdkCall.useDeviceLanguage, SdkCall.popup p]) ∧
    (∀ s, s ∉ [GOOGLE, FACEBOOK, TWITTER, GITHUB, MICROSOFT, YAHOO] →
        (signInWithProvider env (.str s) options).result =
            .error (.plain ("Unrecognized provider: " ++ s)) ∧
          (signInWithProvider env (.str s) options).calls =
            [SdkCall.getAuth, SdkCall.useDeviceLanguage]) := by
  refine ⟨⟨rfl, rfl, rfl, rfl, rfl, rfl⟩, ?_, ?_⟩
  · intro s p h
    unfold signInWithProvider
    rw [h]
    simp only [isInstanceOfOAuthProvider]
    repeat' split
    all_goals simp_all
  · intro s hs
    have h1 : ¬ s = GOOGLE := fun h => hs (by simp [h])
    have h2 : ¬ s = FACEBOOK := fun h => hs (by simp [h])
    have h3 : ¬ s = TWITTER := fun h => hs (by simp [h])
    have h4 : ¬ s = GITHUB := fun h => hs (by simp [h])
    have h5 : ¬ s = MICROSOFT := fun h => hs (by simp [h])
    have h6 : ¬ s = YAHOO := fun h => hs (by simp [h])
    unfold signInWithProvider resolveProvider
    simp [h1, h2, h3, h4, h5, h6]

theorem provider_identifier_resolution_witness :
    (signInWithProvider envAny (.str GOOGLE) none).calls.take 3 =
      [SdkCall.getAuth, SdkCall.useDeviceLanguage, SdkCall.popup newGoogleAuthProvider] :=
  (provider_identifier_resolution envAny none).2.1 GOOGLE newGoogleAuthProvider rfl

/-- Claim C5 (code slip): for the string identifier "microsoft" with a
requested scope, the constructed provider is an `OAuthProvider` but the
guard tests the raw argument (`provider instanceof OAuthProvider`, false
for a string) instead of the constructed `providerObj`, so the popup is
opened with an empty scope list; scopes are attached only when the
caller passes an `OAuthProvider` object itself. -/
theorem scopes_not_attached_for_string_identifier :
    (signInWithProvider envAny (.str MICROSOFT)
        (some { scopes := some ["mail.read"] })).calls =
      [SdkCall.getAuth, SdkCall.useDeviceLanguage,
        SdkCall.popup (newOAuthProvider "microsoft.com")] ∧
    (newOAuthProvider "microsoft.com").scopes = [] ∧
    (signInWithProvider envAny (.obj (newOAuthProvider "microsoft.com"))
        (some { scopes := some ["mail.read"] })).calls =
      [SdkCall.getAuth, SdkCall.useDeviceLanguage,
        SdkCall.popup
          { providerId := "microsoft.com", isOAuth := true, scopes := ["mail.read"],
            customParameters := [] }] :=
  ⟨rfl, rfl, rfl⟩

/-- Claim C1: when the first popup rejects with
"auth/account-exists-with-different-credential" carrying an email and a
pending credential, the sign-in methods for that email are fetched; if
none is in {google.com, facebook.com, github.com} the call rejects with
the unsupported-provider error and no patch writes `error`; otherwise
the matching provider is constructed with `login_hint` set to the email,
a second popup is run against it, and on its success (a user being
present) the pending credential is linked to that user. -/
theorem signInWithProvider_account_conflict_recovery
    (env : Env) (provider : ProviderArg) (options : Option ScopeOptions)
    (pObj : ProviderObj) (e : AuthError) (em : String) (cred : Credential)
    (providers : List String)
    (hres : resolveProvider provider = .ok pObj)
    (hfp : env.firstPopup = .error e)
    (hem : e.email = some em) (hem0 : em ≠ "")
    (hcred : e.credential = some cred)
    (hcode : e.code = "auth/account-exists-with-different-credential")
    (hfetch : env.fetchMethods = .ok providers) :
    SdkCall.fetchSignInMethodsForEmail em ∈ (signInWithProvider env provider options).calls ∧
    (providers.find? (fun p => supportedPopupSignInMethods.contains p) = none →
        (signInWithProvider env provider options).result =
            .error (.plain unsupportedProviderMsg) ∧
          ∀ q ∈ (signInWithProvider env provider options).patches, q.error = none) ∧
    (∀ m, providers.find? (fun p => supportedPopupSignInMethods.contains p) = some m →
        ∃ lp, getProvider m = .ok lp ∧
          SdkCall.popup (setCustomParameters lp [("login_hint", em)]) ∈
              (signInWithProvider env provider options).calls ∧
            ∀ uc u, env.secondPopup = .ok uc → uc.user = some u →
              SdkCall.linkWithCredential u cred ∈
                (signInWithProvider env provider options).calls) := by
  unfold signInWithProvider
  rw [hres]
  simp only [hfp, hem, hcred, hcode, hfetch, if_neg hem0, eq_self_iff_true, if_true]
  refine ⟨?_, ?_, ?_⟩
  · repeat' split
    all_goals simp_all
  · intro hnone
    simp only [hnone]
    refine ⟨by trivial, ?_⟩
    intro q hq
    simp only [List.mem_singleton] at hq
    simp [hq]
  · intro m hm
    obtain ⟨lp, hlp⟩ := getProvider_of_find providers m hm
    refine ⟨lp, hlp, ?_, ?_⟩
    · simp only [hm, hlp]
      repeat' split
      all_goals simp_all
    · intro uc u hsp hu
      simp only [hm, hlp, hsp, hu]
      simp

/-- Claim C10: on the conflict-recovery branch with a successful second
popup, the call resolves with `null` (not the credential), the only
state write is the initial `{loading: true}` (so after the call
`loading` is still true and `error` is untouched), and nothing the call
returns or writes depends on the outcome of the un-awaited
`linkWithCredential`. -/
theorem recovery_branch_resolves_null_no_state
    (env : Env) (provider : ProviderArg) (options : Option ScopeOptions)
    (pObj : ProviderObj) (e : AuthError) (em : String) (cred : Credential)
    (providers : List String) (m : String) (uc : UserCredential)
    (hres : resolveProvider provider = .ok pObj)
    (hfp : env.firstPopup = .error e)
    (hem : e.email = some em) (hem0 : em ≠ "")
    (hcred : e.credential = some cred)
    (hcode : e.code = "auth/account-exists-with-different-credential")
    (hfetch : env.fetchMethods = .ok providers)
    (hfind : providers.find? (fun p => supportedPopupSignInMethods.contains p) = some m)
    (hsp : env.secondPopup = .ok uc) :
    (signInWithProvider env provider options).result = .ok none ∧
    (signInWithProvider env provider options).patches = [{ loading := some (some true) }] ∧
    (∀ s : AuthState,
        (applyPatches s (signInWithProvider env provider options).patches).loading =
            some true ∧
          (applyPatches s (signInWithProvider env provider options).patches).error =
            s.error) ∧
    ∀ lr : Except AuthError UserCredential,
      signInWithProvider { env with linkResult := lr } provider options =
        signInWithProvider env provider options := by
  obtain ⟨lp, hlp⟩ := getProvider_of_find providers m hfind
  have hbody : ∀ q : Env, q.firstPopup = env.firstPopup → q.fetchMethods = env.fetchMethods →
      q.secondPopup = env.secondPopup →
      (signInWithProvider q provider options).result = .ok none ∧
        (signInWithProvider q provider options).patches =
          [{ loading := some (some true) }] := by
    intro q h1 h2 h3
    unfold signInWithProvider
    rw [hres]
    simp only [h1, h2, h3, hfp, hem, hcred, hcode, hfetch, hfind, hlp, hsp,
      if_neg hem0, eq_self_iff_true, if_true]
    exact ⟨by trivial, by trivial⟩
  obtain ⟨hr, hp⟩ := hbody env rfl rfl rfl
  refine ⟨hr, hp, ?_, ?_⟩
  · intro s
    rw [hp]
    exact ⟨rfl, rfl⟩
  · intro lr
    have h2 := hbody { env with linkResult := lr } rfl rfl rfl
    obtain ⟨fp, fm, sp2, lr0⟩ := env
    rfl

theorem signInWithProvider_account_conflict_recovery_witness :
    SdkCall.fetchSignInMethodsForEmail "a@b.c" ∈
      (signInWithProvider envC1 (.str GOOGLE) none).calls :=
  (signInWithProvider_account_conflict_recovery envC1 (.str GOOGLE) none
      newGoogleAuthProvider eConflict "a@b.c" { providerId := "facebook.com" }
      ["github.com"] rfl rfl rfl (by decide) rfl rfl rfl).1

theorem recovery_branch_resolves_null_no_state_witness :
    (signInWithProvider envC1 (.str GOOGLE) none).result = .ok none :=
  (recovery_branch_resolves_null_no_state envC1 (.str GOOGLE) none
      newGoogleAuthProvider eConflict "a@b.c" { providerId := "facebook.com" }
      ["github.com"] "github.com" ucC rfl rfl rfl (by decide) rfl rfl rfl rfl rfl).1

end UseFirebaseAuth
